import Mathlib

/-
Verification of the interface health / selection engine, request parsing and
session behaviour of the internet load balancer (src/proxy_server.py).

Python dictionaries are modelled as association lists (insertion order kept,
first binding wins on lookup, which coincides with dict semantics because
insertion never duplicates a key).  Wall-clock instants (time.time) are
modelled as integers; Python floats that claims never compare numerically
(avg_response_time, response_time) are modelled as rationals.
-/

namespace ILB

/-- Python dict lookup, d.get(k) / d[k], over an association list. -/
def dictLookup {α : Type} (m : List (String × α)) (k : String) : Option α :=
  match m with
  | [] => none
  | (k', v) :: t => if k' = k then some v else dictLookup t k

/-- Python dict write d[k] = v: overwrites in place, else appends. -/
def dictInsert {α : Type} (m : List (String × α)) (k : String) (v : α) : List (String × α) :=
  match m with
  | [] => [(k, v)]
  | (k', v') :: t => if k' = k then (k', v) :: t else (k', v') :: dictInsert t k v

/-- Python del d[k]: removes the binding for k. -/
def dictErase {α : Type} (m : List (String × α)) (k : String) : List (String × α) :=
  match m with
  | [] => []
  | (k', v') :: t => if k' = k then t else (k', v') :: dictErase t k

/-- NetworkInterface.__init__ (src/proxy_server.py lines 19-32).
Default field values are the constructor's initial values. -/
structure NetworkInterface where
  name : String
  ip : String
  active_connections : Int := 0
  last_used : Int := 0
  bytes_sent : Nat := 0
  bytes_received : Nat := 0
  total_requests : Nat := 0
  successful_requests : Nat := 0
  failed_requests : Nat := 0
  last_failure : Option Int := none
  avg_response_time : Rat := 0
  status : String := "ACTIVE"
deriving DecidableEq

/-- Placeholder record used only as the default of List.getD at indices that
are proved in range. -/
def defaultInterface : NetworkInterface := { name := "", ip := "" }

/-- NetworkInterface.update_stats (lines 37-41): adds bytes, bumps
total_requests and updates the cumulative moving average. -/
def update_stats (ifc : NetworkInterface) (bytes_transferred : Nat) (response_time : Rat) :
    NetworkInterface :=
  let total' := ifc.total_requests + 1
  { ifc with
    bytes_sent := ifc.bytes_sent + bytes_transferred
    total_requests := total'
    avg_response_time :=
      (ifc.avg_response_time * ((total' : Rat) - 1) + response_time) / (total' : Rat) }

/-- NetworkInterface.mark_request_success (lines 50-53). -/
def mark_request_success (ifc : NetworkInterface) : NetworkInterface :=
  { ifc with
    total_requests := ifc.total_requests + 1
    successful_requests := ifc.successful_requests + 1 }

/-- NetworkInterface.mark_request_failed (lines 55-58). -/
def mark_request_failed (ifc : NetworkInterface) : NetworkInterface :=
  { ifc with
    total_requests := ifc.total_requests + 1
    failed_requests := ifc.failed_requests + 1 }

/-- LoadBalancer.failure_timeout (line 65): quarantine cooldown in seconds. -/
def failure_timeout : Int := 5

/-- LoadBalancer.max_consecutive_failures (line 66). -/
def max_consecutive_failures : Nat := 3

/-- LoadBalancer.__init__ (lines 60-69).  failed_interfaces is the quarantine
map (ip to entry time), consecutive_failures maps ip to its failure count. -/
structure LoadBalancer where
  interfaces : List NetworkInterface := []
  current_interface_index : Nat := 0
  failed_interfaces : List (String × Int) := []
  consecutive_failures : List (String × Nat) := []
  last_stats_report : Int := 0
deriving DecidableEq

/-- A balancer as configured by discover_interfaces: the selection appends one
NetworkInterface(name, ip) per chosen (name, ip) pair (lines 98-99, 128-130). -/
def initLB (pairs : List (String × String)) : LoadBalancer :=
  { interfaces := pairs.map (fun p => { name := p.1, ip := p.2 }) }

/-- LoadBalancer.mark_interface_failed (lines 142-166).  Returns the updated
balancer together with the updated (shared) interface record. -/
def mark_interface_failed (lb : LoadBalancer) (ifc : NetworkInterface) (now : Int) :
    LoadBalancer × NetworkInterface :=
  let ifc := mark_request_failed ifc
  let ifc := { ifc with last_failure := some now }
  let c := (dictLookup lb.consecutive_failures ifc.ip).getD 0 + 1
  let cf := dictInsert lb.consecutive_failures ifc.ip c
  if c ≥ max_consecutive_failures then
    ({ lb with
        failed_interfaces := dictInsert lb.failed_interfaces ifc.ip now
        consecutive_failures := dictInsert cf ifc.ip 0 },
     { ifc with status := "FAILED" })
  else
    ({ lb with consecutive_failures := cf }, { ifc with status := "DEGRADED" })

/-- LoadBalancer.is_interface_failed (lines 203-211).  Reads the quarantine
map and lazily evicts a stale entry; returns the verdict together with the
possibly updated map. -/
def is_interface_failed (failed : List (String × Int)) (ifc : NetworkInterface) (now : Int) :
    Bool × List (String × Int) :=
  match dictLookup failed ifc.ip with
  | some t =>
    if now - t > failure_timeout then (false, dictErase failed ifc.ip) else (true, failed)
  | none => (false, failed)

/-- The candidate filter of get_best_interface (lines 219-222): drop link-local
addresses, ip.startswith('169.254.'). -/
def validInterfaces (lb : LoadBalancer) : List NetworkInterface :=
  lb.interfaces.filter (fun i => !("169.254.".toList.isPrefixOf i.ip.toList))

/-- The round-robin loop of get_best_interface (lines 228-233): runs at most
fuel times, threading the cursor and the quarantine map; yields the first
candidate that is not currently failed. -/
def selectLoop (valid : List NetworkInterface) (now : Int) :
    Nat → Nat → List (String × Int) → Option NetworkInterface × Nat × List (String × Int)
  | 0, idx, failed => (none, idx, failed)
  | fuel + 1, idx, failed =>
    let ifc := valid.getD (idx % valid.length) defaultInterface
    let idx' := (idx + 1) % valid.length
    let r := is_interface_failed failed ifc now
    if r.1 then selectLoop valid now fuel idx' r.2 else (some ifc, idx', r.2)

/-- LoadBalancer.get_best_interface (lines 213-238).  The error values carry
the RuntimeError messages; the ok value carries the chosen interface and the
post-call balancer state. -/
def get_best_interface (lb : LoadBalancer) (now : Int) :
    Except String (NetworkInterface × LoadBalancer) :=
  if lb.interfaces.isEmpty then .error "No interfaces available"
  else
    let valid := validInterfaces lb
    if valid.isEmpty then
      .error "No valid interfaces available. Please select interfaces with valid IP addresses."
    else
      match selectLoop valid now valid.length lb.current_interface_index lb.failed_interfaces with
      | (some ifc, idx', failed') =>
        .ok (ifc, { lb with current_interface_index := idx', failed_interfaces := failed' })
      | (none, idx', _) =>
        .ok (valid.getD 0 defaultInterface,
             { lb with
                current_interface_index := idx'
                failed_interfaces := []
                consecutive_failures := [] })

/-- N consecutive calls to get_best_interface, collecting the returned
interfaces and the final state (an error call leaves the state unchanged). -/
def runSelections (lb : LoadBalancer) (now : Int) : Nat → List NetworkInterface × LoadBalancer
  | 0 => ([], lb)
  | n + 1 =>
    let r := runSelections lb now n
    match get_best_interface r.2 now with
    | .ok (i, lb'') => (r.1 ++ [i], lb'')
    | .error _ => (r.1, r.2)

/-- Python str.find(sub): index of the first occurrence, none for -1. -/
def findSub (pat : List Char) : List Char → Option Nat
  | [] => if pat.isPrefixOf ([] : List Char) then some 0 else none
  | c :: t => if pat.isPrefixOf (c :: t) then some 0 else (findSub pat t).map (· + 1)

/-- Python str.find(sub, start): search from an offset, absolute result. -/
def findSubFrom (pat : List Char) (l : List Char) (start : Nat) : Option Nat :=
  (findSub pat (l.drop start)).map (· + start)

/-- Split a character list at every separator character, keeping empty
pieces, as Python str.split(sep) does for a one-character separator. -/
def splitOnPred (p : Char → Bool) : List Char → List (List Char)
  | [] => [[]]
  | c :: t =>
    if p c then [] :: splitOnPred p t
    else
      match splitOnPred p t with
      | h :: r => (c :: h) :: r
      | [] => [[c]]

/-- Python str.split(sep) for a one-character separator. -/
def splitOnChar (sep : Char) (l : List Char) : List (List Char) :=
  splitOnPred (fun c => c == sep) l

/-- The characters Python str.strip removes. -/
def isPyWs (c : Char) : Bool :=
  c == ' ' || c == '\t' || c == '\n' || c == '\r' || c == '\x0b' || c == '\x0c'

/-- Python str.strip(): drop whitespace from both ends. -/
def pyStrip (l : List Char) : List Char :=
  ((l.dropWhile isPyWs).reverse.dropWhile isPyWs).reverse

/-- Python str.split() with no argument: whitespace-separated tokens, empty
tokens dropped. -/
def pySplitWs (l : List Char) : List (List Char) :=
  (splitOnPred isPyWs l).filter (fun t => !t.isEmpty)

/-- Decimal digits to a number, most significant first. -/
def digitsToNat (l : List Char) : Nat :=
  l.foldl (fun a c => a * 10 + (c.toNat - 48)) 0

/-- Python int(s) restricted to an optionally signed run of decimal digits
with surrounding whitespace (the underscore grouping Python also accepts is
not modelled; no claim exercises it). -/
def pyInt? (s : List Char) : Option Int :=
  let l := pyStrip s
  let sd : Int × List Char :=
    match l with
    | '+' :: t => (1, t)
    | '-' :: t => (-1, t)
    | t => (1, t)
  if sd.2.isEmpty then none
  else if sd.2.all (fun c => c.isDigit) then some (sd.1 * (digitsToNat sd.2 : Int))
  else none

/-- Characters urllib.parse allows in a scheme after the leading letter. -/
def schemeChar (c : Char) : Bool := c.isAlphanum || c = '+' || c = '-' || c = '.'

/-- Modelled from urllib.parse.urlparse: split off the scheme (lowercased)
when the prefix before the first colon is a letter followed by scheme
characters; otherwise the scheme is empty and the url is left whole. -/
def splitScheme (url : List Char) : List Char × List Char :=
  match findSub [':'] url with
  | some p =>
    match url.take p with
    | c :: rest =>
      if c.isAlpha && rest.all schemeChar then ((c :: rest).map Char.toLower, url.drop (p + 1))
      else ([], url)
    | [] => ([], url)
  | none => ([], url)

/-- Modelled from urllib.parse.urlparse: the netloc is what follows a leading
double slash, up to the next slash, question mark or hash (userinfo and IPv6
brackets are not modelled; no claim exercises them). -/
def splitNetloc (rest : List Char) : List Char :=
  if ['/', '/'].isPrefixOf rest then
    (rest.drop 2).takeWhile (fun c => c ≠ '/' && c ≠ '?' && c ≠ '#')
  else []

/-- Outcome of reading the port attribute of a parsed url: absent, a number,
or the ValueError urllib raises on a non-numeric port. -/
inductive PortParse where
  | noPort
  | port (n : Nat)
  | invalid
deriving DecidableEq

/-- Modelled from urllib.parse: the port is the digit run after the last colon
of the netloc; an empty run means no port, a non-digit run raises. -/
def netlocPort (netloc : List Char) : PortParse :=
  if netloc.contains ':' then
    let tail := (netloc.reverse.takeWhile (fun c => c ≠ ':')).reverse
    if tail.isEmpty then .noPort
    else if tail.all (fun c => c.isDigit) then .port (digitsToNat tail)
    else .invalid
  else .noPort

/-- The inline request-head parsing of handle_client (lines 291-317): the
first newline-separated line is stripped and split on single spaces into
exactly method, url and protocol; CONNECT takes host and port from splitting
the url on a colon; otherwise a Host: header (sought in the raw buffer, value
up to the next CRLF, or up to the last character when no CRLF follows, per the
Python slice [start:-1]) gives the host with port 80, and failing that the url
is parsed as an absolute url, the netloc is the host and the port defaults to
443 exactly when the url string starts with https.  none stands for the two
parse-error returns. -/
def parse_request (request_text : String) : Option (String × String × Int) :=
  let chars := request_text.toList
  let first_line := pyStrip ((splitOnChar '\n' chars).headD [])
  match splitOnChar ' ' first_line with
  | [method, url, _protocol] =>
    if method = "CONNECT".toList then
      match splitOnChar ':' url with
      | [h, p] =>
        match pyInt? p with
        | some n => some (String.mk method, String.mk h, n)
        | none => none
      | _ => none
    else
      match findSub ("Host: ".toList) chars with
      | some i =>
        let host_start := i + 6
        let host :=
          match findSubFrom ("\r\n".toList) chars host_start with
          | some host_end => (chars.take host_end).drop host_start
          | none => (chars.take (chars.length - 1)).drop host_start
        some (String.mk method, String.mk (pyStrip host), 80)
      | none =>
        let netloc := splitNetloc (splitScheme url).2
        match netlocPort netloc with
        | .invalid => none
        | .noPort =>
          some (String.mk method, String.mk netloc,
                if "https".toList.isPrefixOf url then 443 else 80)
        | .port n =>
          some (String.mk method, String.mk netloc,
                if n = 0 then (if "https".toList.isPrefixOf url then 443 else 80) else (n : Int))
  | _ => none

/-- Stated from the words of claim C7: the first line must tokenize into
exactly three whitespace-separated tokens, and in the absolute-url branch the
default port is 443 exactly when the scheme is https.  Every other step
follows the same rules as parse_request. -/
def claimParse (request_text : String) : Option (String × String × Int) :=
  let chars := request_text.toList
  let first_line := pyStrip ((splitOnChar '\n' chars).headD [])
  match pySplitWs first_line with
  | [method, url, _protocol] =>
    if method = "CONNECT".toList then
      match splitOnChar ':' url with
      | [h, p] =>
        match pyInt? p with
        | some n => some (String.mk method, String.mk h, n)
        | none => none
      | _ => none
    else
      match findSub ("Host: ".toList) chars with
      | some i =>
        let host_start := i + 6
        let host :=
          match findSubFrom ("\r\n".toList) chars host_start with
          | some host_end => (chars.take host_end).drop host_start
          | none => (chars.take (chars.length - 1)).drop host_start
        some (String.mk method, String.mk (pyStrip host), 80)
      | none =>
        let scheme := (splitScheme url).1
        let netloc := splitNetloc (splitScheme url).2
        match netlocPort netloc with
        | .invalid => none
        | .noPort =>
          some (String.mk method, String.mk netloc,
                if scheme = "https".toList then 443 else 80)
        | .port n =>
          some (String.mk method, String.mk netloc,
                if n = 0 then (if scheme = "https".toList then 443 else 80) else (n : Int))
  | _ => none

/-- Claim C7 as amended: identical to the claim except that the first line is
split on single space characters into exactly three fields, and the default
port is 443 exactly when the url string starts with https (not when the
scheme is https).  The body restates parse_request word for word. -/
def claimParseAmended (request_text : String) : Option (String × String × Int) :=
  let chars := request_text.toList
  let first_line := pyStrip ((splitOnChar '\n' chars).headD [])
  match splitOnChar ' ' first_line with
  | [method, url, _protocol] =>
    if method = "CONNECT".toList then
      match splitOnChar ':' url with
      | [h, p] =>
        match pyInt? p with
        | some n => some (String.mk method, String.mk h, n)
        | none => none
      | _ => none
    else
      match findSub ("Host: ".toList) chars with
      | some i =>
        let host_start := i + 6
        let host :=
          match findSubFrom ("\r\n".toList) chars host_start with
          | some host_end => (chars.take host_end).drop host_start
          | none => (chars.take (chars.length - 1)).drop host_start
        some (String.mk method, String.mk (pyStrip host), 80)
      | none =>
        let netloc := splitNetloc (splitScheme url).2
        match netlocPort netloc with
        | .invalid => none
        | .noPort =>
          some (String.mk method, String.mk netloc,
                if "https".toList.isPrefixOf url then 443 else 80)
        | .port n =>
          some (String.mk method, String.mk netloc,
                if n = 0 then (if "https".toList.isPrefixOf url then 443 else 80) else (n : Int))
  | _ => none

/-- Outcome of the 5-second head read of handle_client (line 285): either the
asyncio.TimeoutError or the decoded request text. -/
inductive HeadRead where
  | timeout
  | data (s : String)
deriving DecidableEq

/-- Response written on interface-selection failure (line 270). -/
def resp503 : String := "HTTP/1.1 503 Service Unavailable\r\n\r\n"

/-- Response written when every connect attempt failed (line 345). -/
def resp502 : String := "HTTP/1.1 502 Bad Gateway\r\n\r\n"

/-- Response written for a successful CONNECT (line 352). -/
def resp200 : String := "HTTP/1.1 200 Connection established\r\n\r\n"

/-- Abstract environment of one handle_client session: the balancer state at
entry, the clock, the head-read outcome and an oracle giving the outcome of
the k-th outbound connect attempt. -/
structure SessionEnv where
  lb : LoadBalancer
  now : Int
  headRead : HeadRead
  connectOk : Nat → Bool

/-- The response bytes handle_client writes to the client writer, in order
(lines 266-355): 503 when selection raises; nothing on head-read timeout or
parse error; the connect loop makes len(self.load_balancer.interfaces)
attempts, writing 502 when all fail, and on success 200 for CONNECT and
nothing for plain requests (the head replay goes to the remote writer, and
payload bytes later pumped to the client belong to forwardLoop, modelled
separately).  Re-selection inside the loop cannot raise, because the interface
list and its link-local filter are unchanged since the successful first
selection, so it is not modelled as a failure source. -/
def handle_client_responses (env : SessionEnv) : List String :=
  match get_best_interface env.lb env.now with
  | .error _ => [resp503]
  | .ok _ =>
    match env.headRead with
    | .timeout => []
    | .data s =>
      match parse_request s with
      | none => []
      | some (method, _, _) =>
        if (List.range env.lb.interfaces.length).any env.connectOk then
          if method = "CONNECT" then [resp200] else []
        else [resp502]

/-- One result of a reader.read inside ProxyServer.forward (lines 430-462):
a payload (empty means EOF), the idle timeout, a peer reset, or another
error. -/
inductive FwdEvent where
  | chunk (payload : List Nat)
  | timeout
  | reset
  | error
deriving DecidableEq

/-- ProxyServer.forward (lines 426-466): the one-direction copy loop over a
stream of read results, accumulating bytes_count and writing each nonempty
payload through; every terminator breaks the loop and the function returns
bytes_count.  The result pairs the returned count with the payloads written. -/
def forwardLoop : List FwdEvent → Nat → Nat × List (List Nat)
  | [], acc => (acc, [])
  | .chunk p :: rest, acc =>
    if p.isEmpty then (acc, [])
    else
      let r := forwardLoop rest (acc + p.length)
      (r.1, p :: r.2)
  | .timeout :: _, acc => (acc, [])
  | .reset :: _, acc => (acc, [])
  | .error :: _, acc => (acc, [])

/-- A forward pump run from a fresh bytes_count of 0 (line 428). -/
def forward (events : List FwdEvent) : Nat × List (List Nat) :=
  forwardLoop events 0

/-- The session byte accounting of handle_client (lines 262-263 and 385-388):
bytes_transferred is initialized to 0 and is never updated from the two
pumps' returned totals before being passed to update_stats, so the value
handed to update_stats ignores both arguments. -/
def sessionStatsBytes (_c2sTotal _s2cTotal : Nat) : Nat := 0

/-- The operations of the program that touch a balancer or its interface
records: mark_interface_failed on interfaces[idx] (line 332 and 399), a
get_best_interface call (lines 267 and 342), update_stats (line 388),
mark_request_success (line 395) and the teardown decrement of
active_connections clamped at zero (line 416). -/
inductive LBOp where
  | markFailed (idx : Nat) (now : Int)
  | getBest (now : Int)
  | updateStats (idx : Nat) (bytes : Nat) (rt : Rat)
  | markSuccess (idx : Nat)
  | teardown (idx : Nat)

/-- Replace the idx-th interface record in place. -/
def modifyAt (l : List NetworkInterface) (idx : Nat) (f : NetworkInterface → NetworkInterface) :
    List NetworkInterface :=
  match l, idx with
  | [], _ => []
  | x :: t, 0 => f x :: t
  | x :: t, n + 1 => x :: modifyAt t n f

/-- Apply one operation to the shared balancer state.  Python mutates the
shared interface object; here the record is read, transformed and written
back at its position. -/
def applyLBOp (lb : LoadBalancer) : LBOp → LoadBalancer
  | .markFailed idx now =>
    match lb.interfaces.get? idx with
    | some ifc =>
      let r := mark_interface_failed lb ifc now
      { r.1 with interfaces := modifyAt r.1.interfaces idx (fun _ => r.2) }
    | none => lb
  | .getBest now =>
    match get_best_interface lb now with
    | .ok r => r.2
    | .error _ => lb
  | .updateStats idx b rt =>
    { lb with interfaces := modifyAt lb.interfaces idx (fun i => update_stats i b rt) }
  | .markSuccess idx =>
    { lb with interfaces := modifyAt lb.interfaces idx mark_request_success }
  | .teardown idx =>
    let dec := fun (i : NetworkInterface) =>
      { i with active_connections := max 0 (i.active_connections - 1) }
    { lb with interfaces := modifyAt lb.interfaces idx dec }

/-- Run a sequence of operations from a freshly configured balancer. -/
def runLB (pairs : List (String × String)) (ops : List LBOp) : LoadBalancer :=
  ops.foldl applyLBOp (initLB pairs)

/-- An ip is currently quarantined: its entry exists and the 5-second timeout
has not yet elapsed; this is exactly the condition under which
is_interface_failed reports true (lines 203-211). -/
def freshQuarantine (failed : List (String × Int)) (ip : String) (now : Int) : Bool :=
  match dictLookup failed ip with
  | some t => decide (now - t ≤ failure_timeout)
  | none => false

/-- The per-interface invariant of claim C8. -/
def ifaceInv (ifc : NetworkInterface) : Prop :=
  ifc.successful_requests + ifc.failed_requests ≤ ifc.total_requests
  ∧ 0 ≤ ifc.active_connections
  ∧ (ifc.status = "ACTIVE" ∨ ifc.status = "DEGRADED" ∨ ifc.status = "FAILED")

/-- A two-interface balancer as configured by the operator. -/
def lbTwo : LoadBalancer := initLB [("eth0", "10.0.0.2"), ("eth1", "10.0.0.3")]

/-- Both candidates quarantined at time 0 (fresh at any now up to 5). -/
def lbBothQuarantined : LoadBalancer :=
  { lbTwo with
      failed_interfaces := [("10.0.0.2", 0), ("10.0.0.3", 0)]
      consecutive_failures := [("10.0.0.3", 2)] }

/-- Only the second candidate has a quarantine entry, entered at time 0. -/
def lbStaleB : LoadBalancer := { lbTwo with failed_interfaces := [("10.0.0.3", 0)] }

theorem dictLookup_insert {α : Type} (m : List (String × α)) (k k' : String) (v : α) :
    dictLookup (dictInsert m k v) k' = if k = k' then some v else dictLookup m k' := by
  induction m with
  | nil => simp [dictInsert, dictLookup]
  | cons h t ih =>
    obtain ⟨k0, v0⟩ := h
    by_cases h0 : k0 = k
    · subst h0
      by_cases h1 : k0 = k' <;> simp [dictInsert, dictLookup, h1]
    · by_cases h1 : k0 = k'
      · subst h1
        have : ¬ k = k0 := fun h => h0 h.symm
        simp [dictInsert, dictLookup, h0, this]
      · simp [dictInsert, dictLookup, h0, h1, ih]

theorem dictLookup_erase_ne {α : Type} (m : List (String × α)) (k k' : String) (h : k ≠ k') :
    dictLookup (dictErase m k) k' = dictLookup m k' := by
  induction m with
  | nil => simp [dictErase, dictLookup]
  | cons hd t ih =>
    obtain ⟨k0, v0⟩ := hd
    by_cases h0 : k0 = k
    · subst h0
      have : ¬ k0 = k' := fun he => h (he ▸ rfl)
      simp [dictErase, dictLookup, this]
    · by_cases h1 : k0 = k' <;> simp [dictErase, dictLookup, h0, h1, Ne.symm h, ih]

/-- C3: every call to mark_interface_failed increments the record's
failed_requests and total_requests by one and stamps last_failure with now;
when the incremented consecutive-failure count reaches at least 3 it inserts
quarantine entry now for the ip, marks the record FAILED and resets the
stored count to 0, and otherwise it leaves the quarantine map unchanged,
marks the record DEGRADED and stores the incremented count. -/
theorem mark_interface_failed_effects (lb : LoadBalancer) (ifc : NetworkInterface) (now : Int) :
    (mark_interface_failed lb ifc now).2.failed_requests = ifc.failed_requests + 1
    ∧ (mark_interface_failed lb ifc now).2.total_requests = ifc.total_requests + 1
    ∧ (mark_interface_failed lb ifc now).2.last_failure = some now
    ∧ (3 ≤ (dictLookup lb.consecutive_failures ifc.ip).getD 0 + 1 →
        dictLookup (mark_interface_failed lb ifc now).1.failed_interfaces ifc.ip = some now
        ∧ (mark_interface_failed lb ifc now).2.status = "FAILED"
        ∧ dictLookup (mark_interface_failed lb ifc now).1.consecutive_failures ifc.ip = some 0)
    ∧ ((dictLookup lb.consecutive_failures ifc.ip).getD 0 + 1 < 3 →
        (mark_interface_failed lb ifc now).1.failed_interfaces = lb.failed_interfaces
        ∧ (mark_interface_failed lb ifc now).2.status = "DEGRADED"
        ∧ dictLookup (mark_interface_failed lb ifc now).1.consecutive_failures ifc.ip
            = some ((dictLookup lb.consecutive_failures ifc.ip).getD 0 + 1)) := by
  unfold mark_interface_failed mark_request_failed max_consecutive_failures
  dsimp only
  split_ifs with h
  · exact ⟨rfl, rfl, rfl,
      fun _ => ⟨by simp [dictLookup_insert], rfl, by simp [dictLookup_insert]⟩,
      fun hlt => absurd h (by omega)⟩
  · exact ⟨rfl, rfl, rfl,
      fun h3 => absurd h3 (by omega),
      fun _ => ⟨rfl, rfl, by simp [dictLookup_insert]⟩⟩

/-- Witness for C3: a third consecutive failure of 10.0.0.2 quarantines it at
time 7, marks it FAILED and resets its count; a first failure from a clean
state only degrades it and stores count 1. -/
theorem mark_interface_failed_effects_witness :
    (dictLookup
        (mark_interface_failed
          { lbTwo with consecutive_failures := [("10.0.0.2", 2)] }
          { name := "eth0", ip := "10.0.0.2" } 7).1.failed_interfaces "10.0.0.2" = some 7
      ∧ (mark_interface_failed
          { lbTwo with consecutive_failures := [("10.0.0.2", 2)] }
          { name := "eth0", ip := "10.0.0.2" } 7).2.status = "FAILED"
      ∧ dictLookup
          (mark_interface_failed
            { lbTwo with consecutive_failures := [("10.0.0.2", 2)] }
            { name := "eth0", ip := "10.0.0.2" } 7).1.consecutive_failures "10.0.0.2" = some 0)
    ∧ ((mark_interface_failed lbTwo { name := "eth0", ip := "10.0.0.2" } 7).1.failed_interfaces
          = lbTwo.failed_interfaces
      ∧ (mark_interface_failed lbTwo { name := "eth0", ip := "10.0.0.2" } 7).2.status = "DEGRADED"
      ∧ dictLookup
          (mark_interface_failed lbTwo
            { name := "eth0", ip := "10.0.0.2" } 7).1.consecutive_failures "10.0.0.2"
          = some 1) :=
  ⟨(mark_interface_failed_effects
      { lbTwo with consecutive_failures := [("10.0.0.2", 2)] }
      { name := "eth0", ip := "10.0.0.2" } 7).2.2.2.1 (by decide),
   (mark_interface_failed_effects lbTwo { name := "eth0", ip := "10.0.0.2" } 7).2.2.2.2 (by decide)⟩

/-- C7 counterexample.  First input: the request line holds a double space, so
it has exactly three whitespace-separated tokens, yet the code, which splits
on single spaces and so sees four fields, fails the parse while the claim
succeeds.  Second input: an absolute HTTPS url written in upper case has
scheme https (urlparse lowercases it), so the claim defaults the port to 443,
but the code tests whether the raw url string starts with the lower-case
https and defaults to 80. -/
theorem request_parse_counterexample :
    parse_request "GET  http://example.com/ HTTP/1.1\r\nHost: example.com\r\n" = none
    ∧ claimParse "GET  http://example.com/ HTTP/1.1\r\nHost: example.com\r\n"
        = some ("GET", "example.com", 80)
    ∧ parse_request "GET HTTPS://example.com/ HTTP/1.1\r\n" = some ("GET", "example.com", 80)
    ∧ claimParse "GET HTTPS://example.com/ HTTP/1.1\r\n" = some ("GET", "example.com", 443) :=
  ⟨rfl, rfl, rfl, rfl⟩

/-- C7 as amended: the request line must split on single space characters into
exactly three fields method, url, protocol (not on arbitrary whitespace);
CONNECT takes host and port from splitting the url on a colon with the port a
decimal integer; otherwise a raw-buffer Host: header gives the host up to the
next CRLF, stripped, with port 80, and failing that the url is parsed as an
absolute url with host the netloc and port the explicit port, defaulting to
443 exactly when the url string starts with https and to 80 otherwise.
parse_request realises exactly this behaviour. -/
theorem request_parse_amended : ∀ s, parse_request s = claimParseAmended s := fun _ => rfl

theorem forwardLoop_count (events : List FwdEvent) :
    ∀ acc, (forwardLoop events acc).1
      = acc + ((forwardLoop events acc).2.map List.length).sum := by
  induction events with
  | nil => intro acc; simp [forwardLoop]
  | cons e rest ih =>
    intro acc
    cases e with
    | chunk p =>
      cases p with
      | nil => simp [forwardLoop]
      | cons c t =>
        have h2 := ih (acc + (c :: t).length)
        simp only [forwardLoop, List.isEmpty_cons, Bool.false_eq_true, if_false,
          List.map_cons, List.sum_cons]
        omega
    | timeout => simp [forwardLoop]
    | reset => simp [forwardLoop]
    | error => simp [forwardLoop]

/-- C6: a forwarding pump returns exactly the total length of the payloads it
wrote through (the bytes it pumped); but the session-level accumulator is
never fed the two pumps' returns: sessionStatsBytes, the value handle_client
hands to update_stats, is 0 whatever the pumps returned, not their sum. -/
theorem forward_total_and_session_accumulator :
    (∀ events : List FwdEvent,
      (forward events).1 = ((forward events).2.map List.length).sum)
    ∧ sessionStatsBytes 5 7 = 0
    ∧ sessionStatsBytes 5 7 ≠ 5 + 7 := by
  refine ⟨fun events => ?_, rfl, by decide⟩
  have := forwardLoop_count events 0
  simpa [forward] using this

/-- C5: the session writes to the client exactly the 503 byte string when
interface selection raises, exactly the 502 byte string when all
len(interfaces) connect attempts have failed, and nothing at all on a
head-read timeout or a parse error. -/
theorem handle_client_response_bytes (env : SessionEnv) :
    (∀ msg, get_best_interface env.lb env.now = .error msg →
      handle_client_responses env = [resp503])
    ∧ (∀ r, get_best_interface env.lb env.now = .ok r → env.headRead = .timeout →
      handle_client_responses env = [])
    ∧ (∀ r s, get_best_interface env.lb env.now = .ok r → env.headRead = .data s →
      parse_request s = none → handle_client_responses env = [])
    ∧ (∀ r s t, get_best_interface env.lb env.now = .ok r → env.headRead = .data s →
      parse_request s = some t →
      (List.range env.lb.interfaces.length).any env.connectOk = false →
      handle_client_responses env = [resp502]) := by
  refine ⟨?_, ?_, ?_, ?_⟩
  · intro msg h
    simp [handle_client_responses, h]
  · intro r h ht
    simp [handle_client_responses, h, ht]
  · intro r s h hs hp
    simp [handle_client_responses, h, hs, hp]
  · intro r s t h hs hp hc
    obtain ⟨m, rest⟩ := t
    simp [handle_client_responses, h, hs, hp, hc]

/-- Witness for C5: the four response behaviours at concrete sessions — no
interface configured (503), a silent client (nothing), a malformed request
line (nothing), and a CONNECT whose single connect attempt fails (502). -/
theorem handle_client_response_bytes_witness :
    handle_client_responses ⟨initLB [], 0, .timeout, fun _ => false⟩ = [resp503]
    ∧ handle_client_responses ⟨initLB [("eth0", "10.0.0.2")], 0, .timeout, fun _ => false⟩ = []
    ∧ handle_client_responses ⟨initLB [("eth0", "10.0.0.2")], 0, .data "bad", fun _ => false⟩ = []
    ∧ handle_client_responses
        ⟨initLB [("eth0", "10.0.0.2")], 0,
          .data "CONNECT example.com:443 HTTP/1.1\r\n\r\n", fun _ => false⟩ = [resp502] :=
  ⟨(handle_client_response_bytes _).1 _ rfl,
   (handle_client_response_bytes _).2.1 _ rfl rfl,
   (handle_client_response_bytes _).2.2.1 _ "bad" rfl rfl rfl,
   (handle_client_response_bytes _).2.2.2 _ "CONNECT example.com:443 HTTP/1.1\r\n\r\n"
     ("CONNECT", "example.com", 443) rfl rfl rfl rfl⟩

theorem getD_mem_of_lt (l : List NetworkInterface) (n : Nat) (h : n < l.length) :
    l.getD n defaultInterface ∈ l := by
  rw [List.getD_eq_getElem?_getD, List.getElem?_eq_getElem h]
  exact List.getElem_mem h

theorem selectLoop_succ (valid : List NetworkInterface) (now : Int) (n idx : Nat)
    (failed : List (String × Int)) :
    selectLoop valid now (n + 1) idx failed
      = (if (is_interface_failed failed (valid.getD (idx % valid.length) defaultInterface) now).1
         then selectLoop valid now n ((idx + 1) % valid.length)
              (is_interface_failed failed (valid.getD (idx % valid.length) defaultInterface) now).2
         else (some (valid.getD (idx % valid.length) defaultInterface),
               (idx + 1) % valid.length,
               (is_interface_failed failed
                 (valid.getD (idx % valid.length) defaultInterface) now).2)) := rfl

theorem selectLoop_none_of_all_fresh (valid : List NetworkInterface) (now : Int)
    (failed : List (String × Int))
    (hall : ∀ ifc ∈ valid, freshQuarantine failed ifc.ip now = true) :
    ∀ fuel idx, 0 < valid.length →
      ∃ idxf, selectLoop valid now fuel idx failed = (none, idxf, failed) := by
  intro fuel
  induction fuel with
  | zero => exact fun idx _ => ⟨idx, rfl⟩
  | succ n ih =>
    intro idx hlen
    have hmem : valid.getD (idx % valid.length) defaultInterface ∈ valid :=
      getD_mem_of_lt _ _ (Nat.mod_lt _ hlen)
    have hf := hall _ hmem
    have hchk : is_interface_failed failed
        (valid.getD (idx % valid.length) defaultInterface) now = (true, failed) := by
      unfold is_interface_failed
      unfold freshQuarantine at hf
      cases hlk : dictLookup failed (valid.getD (idx % valid.length) defaultInterface).ip with
      | none => rw [hlk] at hf; simp at hf
      | some t =>
        rw [hlk] at hf
        have hle : now - t ≤ failure_timeout := of_decide_eq_true hf
        simp only []
        rw [if_neg (by omega)]
    obtain ⟨idxf, hrec⟩ := ih ((idx + 1) % valid.length) hlen
    refine ⟨idxf, ?_⟩
    rw [selectLoop_succ, hchk]
    simpa using hrec

/-- C1 (panic reset): when every non-link-local candidate is currently
quarantined (its entry is within the 5-second window), a call to
get_best_interface clears both the quarantine map and the
consecutive-failures map wholesale and returns candidates[0]. -/
theorem panic_reset_clears_maps (lb : LoadBalancer) (now : Int)
    (hK : 0 < (validInterfaces lb).length)
    (hall : ∀ ifc ∈ validInterfaces lb,
        freshQuarantine lb.failed_interfaces ifc.ip now = true) :
    ∃ lb', get_best_interface lb now
        = .ok ((validInterfaces lb).getD 0 defaultInterface, lb')
      ∧ lb'.failed_interfaces = [] ∧ lb'.consecutive_failures = [] := by
  obtain ⟨idxf, hloop⟩ := selectLoop_none_of_all_fresh (validInterfaces lb) now
    lb.failed_interfaces hall (validInterfaces lb).length lb.current_interface_index hK
  have hne : lb.interfaces.isEmpty = false := by
    cases hI : lb.interfaces with
    | nil => simp [validInterfaces, hI] at hK
    | cons a t => rfl
  have hv : (validInterfaces lb).isEmpty = false := by
    cases hV : validInterfaces lb with
    | nil => rw [hV] at hK; simp at hK
    | cons a t => rfl
  refine ⟨{ lb with
      current_interface_index := idxf
      failed_interfaces := []
      consecutive_failures := [] }, ?_, rfl, rfl⟩
  simp [get_best_interface, hne, hv, hloop]

/-- Witness for C1: both candidates of lbBothQuarantined are freshly
quarantined at time 3, so the call clears both maps and yields candidate 0. -/
theorem panic_reset_clears_maps_witness :
    ∃ lb', get_best_interface lbBothQuarantined 3
        = .ok ((validInterfaces lbBothQuarantined).getD 0 defaultInterface, lb')
      ∧ lb'.failed_interfaces = [] ∧ lb'.consecutive_failures = [] :=
  panic_reset_clears_maps lbBothQuarantined 3 (by decide) (by decide)

/-- C4 counterexample: the entry for 10.0.0.3, entered at time 0, is stale at
now = 10 (10 - 0 exceeds the 5-second timeout), yet get_best_interface
returns eth0 after checking only eth0, and the stale entry survives the
selection in the quarantine map — so a stale entry is not evicted during
every selection that happens after the window, as the claim states. -/
theorem quarantine_eviction_counterexample :
    (10 : Int) - 0 > failure_timeout
    ∧ get_best_interface lbStaleB 10
        = .ok ({ name := "eth0", ip := "10.0.0.2" },
               { lbStaleB with current_interface_index := 1 })
    ∧ ({ lbStaleB with current_interface_index := 1 } : LoadBalancer).failed_interfaces
        = [("10.0.0.3", 0)] :=
  ⟨by decide, rfl, rfl⟩

theorem selectLoop_fresh_invariant (valid : List NetworkInterface) (now : Int)
    (ip : String) (T : Int) :
    ∀ fuel idx failed, dictLookup failed ip = some T → now - T ≤ failure_timeout →
      (∀ i, (selectLoop valid now fuel idx failed).1 = some i → i.ip ≠ ip)
      ∧ dictLookup (selectLoop valid now fuel idx failed).2.2 ip = some T := by
  intro fuel
  induction fuel with
  | zero =>
    intro idx failed hT hfresh
    exact ⟨fun i h => by simp [selectLoop] at h, by simpa [selectLoop] using hT⟩
  | succ n ih =>
    intro idx failed hT hfresh
    by_cases hip : (valid.getD (idx % valid.length) defaultInterface).ip = ip
    · have hchk : is_interface_failed failed
          (valid.getD (idx % valid.length) defaultInterface) now = (true, failed) := by
        unfold is_interface_failed
        rw [hip, hT]
        simp only []
        rw [if_neg (by omega)]
      rw [selectLoop_succ, hchk]
      simpa using ih _ _ hT hfresh
    · cases hlk : dictLookup failed (valid.getD (idx % valid.length) defaultInterface).ip with
      | none =>
        have hchk : is_interface_failed failed
            (valid.getD (idx % valid.length) defaultInterface) now = (false, failed) := by
          unfold is_interface_failed
          rw [hlk]
        rw [selectLoop_succ, hchk]
        simp only [Bool.false_eq_true, if_false]
        refine ⟨fun i h => ?_, hT⟩
        simp only [Option.some.injEq] at h
        rw [← h]
        exact hip
      | some t =>
        by_cases hst : now - t > failure_timeout
        · have hchk : is_interface_failed failed
              (valid.getD (idx % valid.length) defaultInterface) now
              = (false, dictErase failed
                  (valid.getD (idx % valid.length) defaultInterface).ip) := by
            unfold is_interface_failed
            rw [hlk]
            simp only []
            rw [if_pos hst]
          rw [selectLoop_succ, hchk]
          simp only [Bool.false_eq_true, if_false]
          refine ⟨fun i h => ?_, ?_⟩
          · simp only [Option.some.injEq] at h
            rw [← h]
            exact hip
          · rw [dictLookup_erase_ne _ _ _ hip]
            exact hT
        · have hchk : is_interface_failed failed
              (valid.getD (idx % valid.length) defaultInterface) now = (true, failed) := by
            unfold is_interface_failed
            rw [hlk]
            simp only []
            rw [if_neg hst]
          rw [selectLoop_succ, hchk]
          simpa using ih _ _ hT hfresh

/-- C4 as amended: an ip whose quarantine entry is still fresh (now - T at
most 5 s) is never returned by get_best_interface except through the panic
reset, which clears both maps; and a stale entry (now - T above 5 s) is
evicted exactly when the quarantine check examines that interface, which then
reports it selectable.  The check runs only when the round-robin loop reaches
the interface: a selection that returns an earlier candidate leaves the stale
entry in place. -/
theorem quarantine_window (lb : LoadBalancer) (ip : String) (T now : Int)
    (ifc' : NetworkInterface) (lb' : LoadBalancer) (ifc : NetworkInterface) :
    (dictLookup lb.failed_interfaces ip = some T → now - T ≤ failure_timeout →
      get_best_interface lb now = .ok (ifc', lb') → ifc'.ip = ip →
      lb'.failed_interfaces = [] ∧ lb'.consecutive_failures = [])
    ∧ (dictLookup lb.failed_interfaces ip = some T → now - T > failure_timeout → ifc.ip = ip →
      is_interface_failed lb.failed_interfaces ifc now
        = (false, dictErase lb.failed_interfaces ip)) := by
  constructor
  · intro hT hfresh hok hip
    unfold get_best_interface at hok
    by_cases hemp : lb.interfaces.isEmpty = true
    · rw [if_pos hemp] at hok
      simp at hok
    · rw [if_neg hemp] at hok
      by_cases hvemp : (validInterfaces lb).isEmpty = true
      · rw [if_pos hvemp] at hok
        simp at hok
      · rw [if_neg hvemp] at hok
        have hinv := selectLoop_fresh_invariant (validInterfaces lb) now ip T
          (validInterfaces lb).length lb.current_interface_index lb.failed_interfaces hT hfresh
        rcases hsel : selectLoop (validInterfaces lb) now (validInterfaces lb).length
            lb.current_interface_index lb.failed_interfaces with ⟨fst, idx2, failed2⟩
        rw [hsel] at hok hinv
        cases fst with
        | some j =>
          exfalso
          simp only [] at hok
          injection hok with hpair
          have h1 : j = ifc' := congrArg Prod.fst hpair
          exact hinv.1 j rfl (h1 ▸ hip)
        | none =>
          simp only [] at hok
          injection hok with hpair
          have h2 : ({ lb with
              current_interface_index := idx2
              failed_interfaces := []
              consecutive_failures := [] } : LoadBalancer) = lb' :=
            congrArg Prod.snd hpair
          rw [← h2]
          exact ⟨rfl, rfl⟩
  · intro hT hstale hip
    unfold is_interface_failed
    rw [hip, hT]
    simp only []
    rw [if_pos hstale]

/-- Witness for C4 amended: the fresh part applied at the panic reset of
lbBothQuarantined at time 3 (returning quarantined 10.0.0.2 clears both
maps), and the stale part applied to the entry of 10.0.0.3 at time 10. -/
theorem quarantine_window_witness :
    (({ lbBothQuarantined with
          current_interface_index := 0
          failed_interfaces := []
          consecutive_failures := [] } : LoadBalancer).failed_interfaces = []
      ∧ ({ lbBothQuarantined with
            current_interface_index := 0
            failed_interfaces := []
            consecutive_failures := [] } : LoadBalancer).consecutive_failures = [])
    ∧ is_interface_failed lbStaleB.failed_interfaces { name := "eth1", ip := "10.0.0.3" } 10
        = (false, dictErase lbStaleB.failed_interfaces "10.0.0.3") :=
  ⟨(quarantine_window lbBothQuarantined "10.0.0.2" 0 3 { name := "eth0", ip := "10.0.0.2" }
      { lbBothQuarantined with
          current_interface_index := 0
          failed_interfaces := []
          consecutive_failures := [] } defaultInterface).1 (by decide) (by decide) rfl rfl,
   (quarantine_window lbStaleB "10.0.0.3" 0 10 defaultInterface lbStaleB
      { name := "eth1", ip := "10.0.0.3" }).2 (by decide) (by decide) rfl⟩

theorem get_best_no_quarantine (lb : LoadBalancer) (now : Int)
    (hfail : lb.failed_interfaces = [])
    (hK : 0 < (validInterfaces lb).length) :
    get_best_interface lb now
      = .ok ((validInterfaces lb).getD
               (lb.current_interface_index % (validInterfaces lb).length) defaultInterface,
             { lb with current_interface_index :=
                 (lb.current_interface_index + 1) % (validInterfaces lb).length }) := by
  have hne : lb.interfaces.isEmpty = false := by
    cases hI : lb.interfaces with
    | nil => simp [validInterfaces, hI] at hK
    | cons a t => rfl
  have hv : (validInterfaces lb).isEmpty = false := by
    cases hV : validInterfaces lb with
    | nil => rw [hV] at hK; simp at hK
    | cons a t => rfl
  have hchk : is_interface_failed lb.failed_interfaces
      ((validInterfaces lb).getD
        (lb.current_interface_index % (validInterfaces lb).length) defaultInterface) now
      = (false, lb.failed_interfaces) := by
    unfold is_interface_failed
    rw [hfail]
    rfl
  have hsel : selectLoop (validInterfaces lb) now (validInterfaces lb).length
      lb.current_interface_index lb.failed_interfaces
      = (some ((validInterfaces lb).getD
          (lb.current_interface_index % (validInterfaces lb).length) defaultInterface),
         (lb.current_interface_index + 1) % (validInterfaces lb).length,
         lb.failed_interfaces) := by
    obtain ⟨m, hm⟩ : ∃ m, (validInterfaces lb).length = m + 1 :=
      ⟨(validInterfaces lb).length - 1, by omega⟩
    conv_lhs => rw [hm]
    rw [selectLoop_succ, hchk]
    simp only [Bool.false_eq_true, if_false]
  simp [get_best_interface, hne, hv, hsel]

theorem runSelections_spec (lb : LoadBalancer) (now : Int)
    (hfail : lb.failed_interfaces = [])
    (hK : 0 < (validInterfaces lb).length) :
    ∀ N, (runSelections lb now N).1
        = (List.range N).map (fun k =>
            (validInterfaces lb).getD
              ((lb.current_interface_index + k) % (validInterfaces lb).length)
              defaultInterface)
      ∧ (runSelections lb now N).2
        = { lb with current_interface_index :=
              if N = 0 then lb.current_interface_index
              else (lb.current_interface_index + N) % (validInterfaces lb).length } := by
  intro N
  induction N with
  | zero => exact ⟨by simp [runSelections], by simp [runSelections]⟩
  | succ n ih =>
    obtain ⟨ih1, ih2⟩ := ih
    have hvalid' : validInterfaces (runSelections lb now n).2 = validInterfaces lb := by
      rw [ih2]; rfl
    have hfail' : (runSelections lb now n).2.failed_interfaces = [] := by
      rw [ih2]; exact hfail
    have hK' : 0 < (validInterfaces (runSelections lb now n).2).length := by
      rw [hvalid']; exact hK
    have hstep := get_best_no_quarantine (runSelections lb now n).2 now hfail' hK'
    rw [hvalid'] at hstep
    have hcur : (runSelections lb now n).2.current_interface_index
          % (validInterfaces lb).length
        = (lb.current_interface_index + n) % (validInterfaces lb).length := by
      rw [ih2]
      by_cases h : n = 0
      · subst h; simp
      · simp only [h, if_false]
        exact Nat.mod_mod_of_dvd _ dvd_rfl
    have hcur1 : ((runSelections lb now n).2.current_interface_index + 1)
          % (validInterfaces lb).length
        = (lb.current_interface_index + (n + 1)) % (validInterfaces lb).length := by
      rw [← Nat.mod_add_mod, hcur, Nat.mod_add_mod, ← Nat.add_assoc]
    constructor
    · simp only [runSelections]
      rw [hstep]
      dsimp only
      rw [ih1, hcur, List.range_succ, List.map_append, List.map_cons, List.map_nil]
    · simp only [runSelections]
      rw [hstep]
      dsimp only
      rw [ih2]
      have hne : ¬ (n + 1 = 0) := Nat.succ_ne_zero n
      simp only [hne, if_false]
      rw [ih2] at hcur1
      by_cases h : n = 0
      · subst h
        simp only [if_pos rfl] at hcur1 ⊢
        rw [← hcur1]
      · simp only [h, if_false] at hcur1 ⊢
        rw [← hcur1]

theorem mod_eq_iff_dvd_shift (K i M : Nat) (hi : i < K) :
    M % K = i ↔ K ∣ M + (K - i) := by
  have h1 : (M % K = i) ↔ Nat.ModEq K M i := by
    unfold Nat.ModEq
    rw [Nat.mod_eq_of_lt hi]
  rw [h1, Nat.modEq_iff_dvd, ← Int.natCast_dvd_natCast]
  push_cast [Nat.cast_sub hi.le]
  constructor
  · intro h
    have h2 : (M : Int) + ((K : Int) - (i : Int)) = (K : Int) - ((i : Int) - (M : Int)) := by
      ring
    rw [h2]
    exact dvd_sub (dvd_refl _) h
  · intro h
    have h2 : (i : Int) - (M : Int) = (K : Int) - ((M : Int) + ((K : Int) - (i : Int))) := by
      ring
    rw [h2]
    exact dvd_sub (dvd_refl _) h

theorem mod_count_range (K i : Nat) (hi : i < K) :
    ∀ M, (List.range M).countP (fun m => m % K == i) = (M + (K - 1 - i)) / K := by
  intro M
  induction M with
  | zero =>
    simp [Nat.div_eq_of_lt (by omega : K - 1 - i < K)]
  | succ M ihM =>
    rw [List.range_succ, List.countP_append, ihM]
    simp only [List.countP_cons, List.countP_nil]
    have hsd : M + 1 + (K - 1 - i) = (M + (K - 1 - i)) + 1 := by omega
    rw [hsd, Nat.succ_div]
    have hiff : (M % K = i) ↔ K ∣ (M + (K - 1 - i) + 1) := by
      have he : M + (K - 1 - i) + 1 = M + (K - i) := by omega
      rw [he]
      exact mod_eq_iff_dvd_shift K i M hi
    by_cases hmi : M % K = i
    · simp [hmi, hiff.mp hmi]
    · have hnd : ¬ K ∣ (M + (K - 1 - i) + 1) := fun hd => hmi (hiff.mpr hd)
      simp [hmi, hnd]

theorem count_shift (c0 K i : Nat) :
    ∀ N, (List.range N).countP (fun k => (c0 + k) % K == i)
          + (List.range c0).countP (fun m => m % K == i)
        = (List.range (c0 + N)).countP (fun m => m % K == i) := by
  intro N
  induction N with
  | zero => simp
  | succ n ih =>
    have hr : c0 + (n + 1) = (c0 + n) + 1 := by omega
    rw [hr, List.range_succ, List.countP_append, List.range_succ, List.countP_append, ← ih]
    simp only [List.countP_cons, List.countP_nil]
    omega

theorem div_interval (s N K : Nat) (hK : 0 < K) (hs : s < K) :
    (s + N) / K = N / K ∨ (s + N) / K = (N + K - 1) / K := by
  have h1 : N / K ≤ (s + N) / K := Nat.div_le_div_right (Nat.le_add_left _ _)
  have h2 : (s + N) / K ≤ (N + K - 1) / K := Nat.div_le_div_right (by omega)
  have h3 : (N + K - 1) / K ≤ N / K + 1 := by
    calc (N + K - 1) / K ≤ (N + K) / K := Nat.div_le_div_right (by omega)
    _ = N / K + 1 := Nat.add_div_right _ hK
  revert h1 h2 h3
  generalize N / K = A
  generalize (s + N) / K = B
  generalize (N + K - 1) / K = C
  intro h1 h2 h3
  omega

theorem count_round_robin (c0 K i : Nat) (hK : 0 < K) (hi : i < K) (N : Nat) :
    (List.range N).countP (fun k => (c0 + k) % K == i) = N / K
    ∨ (List.range N).countP (fun k => (c0 + k) % K == i) = (N + K - 1) / K := by
  have hshift := count_shift c0 K i N
  have h1 := mod_count_range K i hi c0
  have h2 := mod_count_range K i hi (c0 + N)
  rw [h1, h2] at hshift
  have ha : c0 + N + (K - 1 - i) = (c0 + (K - 1 - i)) + N := by omega
  rw [ha] at hshift
  have hsplit : ((c0 + (K - 1 - i)) + N) / K
      = (c0 + (K - 1 - i)) / K + ((c0 + (K - 1 - i)) % K + N) / K := by
    conv_lhs => rw [← Nat.div_add_mod (c0 + (K - 1 - i)) K]
    rw [Nat.add_assoc, Nat.mul_add_div hK]
  rw [hsplit] at hshift
  have hlt : (c0 + (K - 1 - i)) % K < K := Nat.mod_lt _ hK
  have hdi := div_interval ((c0 + (K - 1 - i)) % K) N K hK hlt
  revert hshift hdi
  generalize (List.range N).countP (fun k => (c0 + k) % K == i) = count
  generalize ((c0 + (K - 1 - i)) % K + N) / K = X
  generalize N / K = Y
  generalize (N + K - 1) / K = Z
  generalize (c0 + (K - 1 - i)) / K = W
  intro hshift hdi
  omega

/-- C2 (round robin): for N at least 1, K at least 1 valid (non-link-local)
interfaces and no quarantine entries, over N consecutive calls to
get_best_interface the j-th call returns candidate number
(cursor + j) mod K, every candidate index i is hit either N / K (the floor)
or (N + K - 1) / K (the ceiling of N / K) times, and the cursor advances by
exactly one (mod K) on every call. -/
theorem round_robin_fair (lb : LoadBalancer) (now : Int) (N i j : Nat)
    (hfail : lb.failed_interfaces = [])
    (hK : 0 < (validInterfaces lb).length)
    (_hN : 1 ≤ N)
    (hi : i < (validInterfaces lb).length)
    (hj : j < N) :
    ((runSelections lb now N).1
      = (List.range N).map (fun k =>
          (validInterfaces lb).getD
            ((lb.current_interface_index + k) % (validInterfaces lb).length)
            defaultInterface))
    ∧ (((List.range N).countP
          (fun k => (lb.current_interface_index + k) % (validInterfaces lb).length == i))
         = N / (validInterfaces lb).length
       ∨ ((List.range N).countP
          (fun k => (lb.current_interface_index + k) % (validInterfaces lb).length == i))
         = (N + (validInterfaces lb).length - 1) / (validInterfaces lb).length)
    ∧ ((runSelections lb now (j + 1)).2.current_interface_index
        = ((runSelections lb now j).2.current_interface_index + 1)
            % (validInterfaces lb).length) := by
  refine ⟨(runSelections_spec lb now hfail hK N).1,
    count_round_robin lb.current_interface_index (validInterfaces lb).length i hK hi N, ?_⟩
  have hj1 := (runSelections_spec lb now hfail hK (j + 1)).2
  have hj0 := (runSelections_spec lb now hfail hK j).2
  rw [hj1, hj0]
  have hne : ¬ (j + 1 = 0) := Nat.succ_ne_zero j
  simp only [hne, if_false]
  by_cases h : j = 0
  · subst h
    simp
  · simp only [h, if_false]
    rw [Nat.mod_add_mod, ← Nat.add_assoc]

/-- Witness for C2 at the two-interface balancer, five selections, candidate
index 0 and call index 0. -/
theorem round_robin_fair_witness :
    ((runSelections lbTwo 0 5).1
      = (List.range 5).map (fun k =>
          (validInterfaces lbTwo).getD
            ((lbTwo.current_interface_index + k) % (validInterfaces lbTwo).length)
            defaultInterface))
    ∧ (((List.range 5).countP
          (fun k => (lbTwo.current_interface_index + k) % (validInterfaces lbTwo).length == 0))
         = 5 / (validInterfaces lbTwo).length
       ∨ ((List.range 5).countP
          (fun k => (lbTwo.current_interface_index + k) % (validInterfaces lbTwo).length == 0))
         = (5 + (validInterfaces lbTwo).length - 1) / (validInterfaces lbTwo).length)
    ∧ ((runSelections lbTwo 0 (0 + 1)).2.current_interface_index
        = ((runSelections lbTwo 0 0).2.current_interface_index + 1)
            % (validInterfaces lbTwo).length) :=
  round_robin_fair lbTwo 0 5 0 0 rfl (by decide) (by decide) (by decide) (by decide)

theorem mark_interface_failed_record (lb : LoadBalancer) (ifc : NetworkInterface) (now : Int) :
    (mark_interface_failed lb ifc now).1.interfaces = lb.interfaces
    ∧ (mark_interface_failed lb ifc now).2.successful_requests = ifc.successful_requests
    ∧ (mark_interface_failed lb ifc now).2.failed_requests = ifc.failed_requests + 1
    ∧ (mark_interface_failed lb ifc now).2.total_requests = ifc.total_requests + 1
    ∧ (mark_interface_failed lb ifc now).2.active_connections = ifc.active_connections
    ∧ ((mark_interface_failed lb ifc now).2.status = "FAILED"
       ∨ (mark_interface_failed lb ifc now).2.status = "DEGRADED") := by
  unfold mark_interface_failed mark_request_failed
  dsimp only
  split_ifs
  · exact ⟨rfl, rfl, rfl, rfl, rfl, Or.inl rfl⟩
  · exact ⟨rfl, rfl, rfl, rfl, rfl, Or.inr rfl⟩

theorem mark_interface_failed_cf (lb : LoadBalancer) (ifc : NetworkInterface) (now : Int) :
    (mark_interface_failed lb ifc now).1.consecutive_failures
      = (if (dictLookup lb.consecutive_failures ifc.ip).getD 0 + 1 ≥ max_consecutive_failures
         then dictInsert (dictInsert lb.consecutive_failures ifc.ip
                ((dictLookup lb.consecutive_failures ifc.ip).getD 0 + 1)) ifc.ip 0
         else dictInsert lb.consecutive_failures ifc.ip
                ((dictLookup lb.consecutive_failures ifc.ip).getD 0 + 1)) := by
  unfold mark_interface_failed mark_request_failed
  dsimp only
  split_ifs <;> rfl

theorem mem_modifyAt (l : List NetworkInterface) (idx : Nat)
    (f : NetworkInterface → NetworkInterface) :
    ∀ y ∈ modifyAt l idx f, y ∈ l ∨ ∃ x ∈ l, y = f x := by
  induction l generalizing idx with
  | nil => intro y hy; simp [modifyAt] at hy
  | cons a t ih =>
    intro y hy
    cases idx with
    | zero =>
      simp only [modifyAt, List.mem_cons] at hy
      cases hy with
      | inl h => exact Or.inr ⟨a, List.mem_cons_self a t, h⟩
      | inr h => exact Or.inl (List.mem_cons_of_mem _ h)
    | succ n =>
      simp only [modifyAt, List.mem_cons] at hy
      cases hy with
      | inl h => exact Or.inl (h ▸ List.mem_cons_self a t)
      | inr h =>
        cases ih n y h with
        | inl h2 => exact Or.inl (List.mem_cons_of_mem _ h2)
        | inr h2 =>
          obtain ⟨x, hx, hyx⟩ := h2
          exact Or.inr ⟨x, List.mem_cons_of_mem _ hx, hyx⟩

theorem foldl_applyLBOp_inv (P : LoadBalancer → Prop)
    (hstep : ∀ lb op, P lb → P (applyLBOp lb op)) :
    ∀ (ops : List LBOp) (lb : LoadBalancer), P lb → P (List.foldl applyLBOp lb ops) := by
  intro ops
  induction ops with
  | nil => exact fun lb h => h
  | cons op t ih => exact fun lb h => ih _ (hstep _ _ h)

theorem get_best_state_components (lb : LoadBalancer) (now : Int)
    (r : NetworkInterface × LoadBalancer) (h : get_best_interface lb now = .ok r) :
    r.2.interfaces = lb.interfaces
    ∧ (r.2.consecutive_failures = lb.consecutive_failures
       ∨ r.2.consecutive_failures = []) := by
  unfold get_best_interface at h
  by_cases hemp : lb.interfaces.isEmpty = true
  · rw [if_pos hemp] at h; simp at h
  · rw [if_neg hemp] at h
    by_cases hv : (validInterfaces lb).isEmpty = true
    · rw [if_pos hv] at h; simp at h
    · rw [if_neg hv] at h
      rcases hsel : selectLoop (validInterfaces lb) now (validInterfaces lb).length
          lb.current_interface_index lb.failed_interfaces with ⟨fst, idx2, failed2⟩
      rw [hsel] at h
      cases fst with
      | some j =>
        simp only [] at h
        injection h with hpair
        have h2 := congrArg Prod.snd hpair
        rw [← h2]
        exact ⟨rfl, Or.inl rfl⟩
      | none =>
        simp only [] at h
        injection h with hpair
        have h2 := congrArg Prod.snd hpair
        rw [← h2]
        exact ⟨rfl, Or.inr rfl⟩

theorem applyLBOp_preserves_iface (P : NetworkInterface → Prop)
    (hupd : ∀ i b rt, P i → P (update_stats i b rt))
    (hsucc : ∀ i, P i → P (mark_request_success i))
    (hfailrec : ∀ lb i now, P i → P (mark_interface_failed lb i now).2)
    (hdec : ∀ i, P i →
      P { i with active_connections := max 0 (i.active_connections - 1) })
    (lb : LoadBalancer) (op : LBOp)
    (h : ∀ i ∈ lb.interfaces, P i) :
    ∀ i ∈ (applyLBOp lb op).interfaces, P i := by
  cases op with
  | markFailed idx now =>
    dsimp only [applyLBOp]
    cases hg : lb.interfaces.get? idx with
    | none => exact h
    | some ifc =>
      dsimp only
      intro y hy
      rw [(mark_interface_failed_record lb ifc now).1] at hy
      rcases mem_modifyAt _ _ _ y hy with hmem | ⟨x, hx, rfl⟩
      · exact h _ hmem
      · exact hfailrec lb ifc now (h _ (List.get?_mem hg))
  | getBest now =>
    dsimp only [applyLBOp]
    cases hg : get_best_interface lb now with
    | error e => exact h
    | ok r =>
      have := (get_best_state_components lb now r hg).1
      dsimp only
      rw [this]
      exact h
  | updateStats idx b rt =>
    dsimp only [applyLBOp]
    intro y hy
    rcases mem_modifyAt _ _ _ y hy with hmem | ⟨x, hx, rfl⟩
    · exact h _ hmem
    · exact hupd x b rt (h _ hx)
  | markSuccess idx =>
    dsimp only [applyLBOp]
    intro y hy
    rcases mem_modifyAt _ _ _ y hy with hmem | ⟨x, hx, rfl⟩
    · exact h _ hmem
    · exact hsucc x (h _ hx)
  | teardown idx =>
    dsimp only [applyLBOp]
    intro y hy
    rcases mem_modifyAt _ _ _ y hy with hmem | ⟨x, hx, rfl⟩
    · exact h _ hmem
    · exact hdec x (h _ hx)

/-- C8: from a freshly configured balancer, after any sequence of the
operations of the program, every interface record satisfies
successful + failed at most total, a non-negative active_connections and a
status among ACTIVE, DEGRADED, FAILED; moreover update_stats increments only
total_requests among the three request counters, while mark_request_success
and mark_request_failed each increment total_requests together with their
respective counter. -/
theorem interface_counter_invariants (pairs : List (String × String)) (ops : List LBOp)
    (ifc : NetworkInterface) (hmem : ifc ∈ (runLB pairs ops).interfaces)
    (s : NetworkInterface) (b : Nat) (rt : Rat) :
    ifaceInv ifc
    ∧ ((update_stats s b rt).total_requests = s.total_requests + 1
       ∧ (update_stats s b rt).successful_requests = s.successful_requests
       ∧ (update_stats s b rt).failed_requests = s.failed_requests)
    ∧ ((mark_request_success s).total_requests = s.total_requests + 1
       ∧ (mark_request_success s).successful_requests = s.successful_requests + 1
       ∧ (mark_request_success s).failed_requests = s.failed_requests)
    ∧ ((mark_request_failed s).total_requests = s.total_requests + 1
       ∧ (mark_request_failed s).failed_requests = s.failed_requests + 1
       ∧ (mark_request_failed s).successful_requests = s.successful_requests) := by
  refine ⟨?_, ⟨rfl, rfl, rfl⟩, ⟨rfl, rfl, rfl⟩, ⟨rfl, rfl, rfl⟩⟩
  have hstep : ∀ lb op, (∀ i ∈ lb.interfaces, ifaceInv i) →
      ∀ i ∈ (applyLBOp lb op).interfaces, ifaceInv i := by
    intro lb op
    refine applyLBOp_preserves_iface ifaceInv ?_ ?_ ?_ ?_ lb op
    · intro i b' rt' ⟨h1, h2, h3⟩
      exact ⟨by dsimp [update_stats]; omega, h2, h3⟩
    · intro i ⟨h1, h2, h3⟩
      exact ⟨by dsimp [mark_request_success]; omega, h2, h3⟩
    · intro lb' i now' ⟨h1, h2, h3⟩
      obtain ⟨_, hs, hf, ht, ha, hst⟩ := mark_interface_failed_record lb' i now'
      refine ⟨by rw [hs, hf, ht]; omega, by rw [ha]; exact h2, ?_⟩
      cases hst with
      | inl h' => exact Or.inr (Or.inr h')
      | inr h' => exact Or.inr (Or.inl h')
    · intro i ⟨h1, h2, h3⟩
      refine ⟨h1, ?_, h3⟩
      dsimp only
      exact le_max_left 0 _
  have hinit : ∀ i ∈ (initLB pairs).interfaces, ifaceInv i := by
    intro i hi
    simp only [initLB, List.mem_map] at hi
    obtain ⟨p, hp, rfl⟩ := hi
    exact ⟨Nat.le_refl 0, le_refl 0, Or.inl rfl⟩
  exact foldl_applyLBOp_inv _ hstep ops (initLB pairs) hinit ifc hmem

/-- Witness for C8: after a failure mark, a success mark and a teardown
decrement on a one-interface balancer, the stored record satisfies the
invariant; the counter characterizations are instanced at a concrete
record. -/
theorem interface_counter_invariants_witness :
    ifaceInv ((runLB [("eth0", "10.0.0.2")]
        [.markFailed 0 1, .markSuccess 0, .teardown 0]).interfaces.headD
          defaultInterface)
    ∧ ((update_stats defaultInterface 3 0).total_requests
          = defaultInterface.total_requests + 1
       ∧ (update_stats defaultInterface 3 0).successful_requests
          = defaultInterface.successful_requests
       ∧ (update_stats defaultInterface 3 0).failed_requests
          = defaultInterface.failed_requests)
    ∧ ((mark_request_success defaultInterface).total_requests
          = defaultInterface.total_requests + 1
       ∧ (mark_request_success defaultInterface).successful_requests
          = defaultInterface.successful_requests + 1
       ∧ (mark_request_success defaultInterface).failed_requests
          = defaultInterface.failed_requests)
    ∧ ((mark_request_failed defaultInterface).total_requests
          = defaultInterface.total_requests + 1
       ∧ (mark_request_failed defaultInterface).failed_requests
          = defaultInterface.failed_requests + 1
       ∧ (mark_request_failed defaultInterface).successful_requests
          = defaultInterface.successful_requests) :=
  interface_counter_invariants [("eth0", "10.0.0.2")]
    [.markFailed 0 1, .markSuccess 0, .teardown 0]
    ((runLB [("eth0", "10.0.0.2")]
        [.markFailed 0 1, .markSuccess 0, .teardown 0]).interfaces.headD
          defaultInterface)
    (by decide) defaultInterface 3 0

/-- C9: no operation of the program increments active_connections; it starts
at 0 and is only ever decremented with a clamp at zero during teardown, so
after any sequence of operations every interface record has
active_connections exactly 0. -/
theorem active_connections_zero (pairs : List (String × String)) (ops : List LBOp)
    (ifc : NetworkInterface) (hmem : ifc ∈ (runLB pairs ops).interfaces) :
    ifc.active_connections = 0 := by
  have hstep : ∀ lb op, (∀ i ∈ lb.interfaces, i.active_connections = 0) →
      ∀ i ∈ (applyLBOp lb op).interfaces, i.active_connections = 0 := by
    intro lb op
    refine applyLBOp_preserves_iface (fun i => i.active_connections = 0) ?_ ?_ ?_ ?_ lb op
    · intro i b rt h
      exact h
    · intro i h
      exact h
    · intro lb' i now' h
      rw [(mark_interface_failed_record lb' i now').2.2.2.2.1]
      exact h
    · intro i h
      dsimp only
      rw [h]
      decide
  have hinit : ∀ i ∈ (initLB pairs).interfaces, i.active_connections = 0 := by
    intro i hi
    simp only [initLB, List.mem_map] at hi
    obtain ⟨p, hp, rfl⟩ := hi
    rfl
  exact foldl_applyLBOp_inv _ hstep ops (initLB pairs) hinit ifc hmem

/-- Witness for C9: after a failure mark and two teardown decrements the
single interface still has active_connections 0. -/
theorem active_connections_zero_witness :
    ((runLB [("eth0", "10.0.0.2")]
        [.teardown 0, .markFailed 0 1, .teardown 0]).interfaces.headD
          defaultInterface).active_connections = 0 :=
  active_connections_zero [("eth0", "10.0.0.2")]
    [.teardown 0, .markFailed 0 1, .teardown 0]
    ((runLB [("eth0", "10.0.0.2")]
        [.teardown 0, .markFailed 0 1, .teardown 0]).interfaces.headD defaultInterface)
    (by decide)

/-- C10: from a freshly configured balancer, after any sequence of operations
every entry stored in the consecutive-failures map is at most 2: a count that
reaches the threshold 3 inside mark_interface_failed is reset to 0 in the
same call, and the panic reset clears the whole map, so no entry ever
persists at 3 or above between operations. -/
theorem consecutive_failures_bounded (pairs : List (String × String)) (ops : List LBOp)
    (ip : String) (v : Nat)
    (h : dictLookup (runLB pairs ops).consecutive_failures ip = some v) :
    v ≤ 2 := by
  have key : ∀ ip' v', dictLookup (runLB pairs ops).consecutive_failures ip' = some v'
      → v' ≤ 2 := by
    have hstep : ∀ lb op,
        (∀ ip' v', dictLookup lb.consecutive_failures ip' = some v' → v' ≤ 2) →
        ∀ ip' v', dictLookup (applyLBOp lb op).consecutive_failures ip' = some v'
          → v' ≤ 2 := by
      intro lb op hP
      cases op with
      | markFailed idx now =>
        dsimp only [applyLBOp]
        cases hg : lb.interfaces.get? idx with
        | none => exact hP
        | some ifc =>
          dsimp only
          intro ip' v' hlk
          rw [mark_interface_failed_cf lb ifc now] at hlk
          by_cases hc : (dictLookup lb.consecutive_failures ifc.ip).getD 0 + 1
              ≥ max_consecutive_failures
          · rw [if_pos hc, dictLookup_insert] at hlk
            by_cases hk : ifc.ip = ip'
            · rw [if_pos hk] at hlk
              cases hlk
              exact Nat.zero_le 2
            · rw [if_neg hk, dictLookup_insert, if_neg hk] at hlk
              exact hP _ _ hlk
          · rw [if_neg hc, dictLookup_insert] at hlk
            by_cases hk : ifc.ip = ip'
            · rw [if_pos hk] at hlk
              cases hlk
              unfold max_consecutive_failures at hc
              omega
            · rw [if_neg hk] at hlk
              exact hP _ _ hlk
      | getBest now =>
        dsimp only [applyLBOp]
        cases hg : get_best_interface lb now with
        | error e => exact hP
        | ok r =>
          dsimp only
          cases (get_best_state_components lb now r hg).2 with
          | inl hsame => rw [hsame]; exact hP
          | inr hnil =>
            rw [hnil]
            intro ip' v' hlk
            cases hlk
      | updateStats idx b rt => exact hP
      | markSuccess idx => exact hP
      | teardown idx => exact hP
    have hinit : ∀ ip' v', dictLookup (initLB pairs).consecutive_failures ip' = some v'
        → v' ≤ 2 := by
      intro ip' v' hlk
      cases hlk
    exact foldl_applyLBOp_inv
      (fun lb => ∀ ip' v', dictLookup lb.consecutive_failures ip' = some v' → v' ≤ 2)
      hstep ops (initLB pairs) hinit
  exact key ip v h

/-- Witness for C10: one failure mark stores count 1 for the interface ip,
and the theorem bounds it by 2. -/
theorem consecutive_failures_bounded_witness :
    dictLookup (runLB [("eth0", "10.0.0.2")]
        [.markFailed 0 1]).consecutive_failures "10.0.0.2" = some 1
    ∧ (1 : Nat) ≤ 2 :=
  ⟨by decide,
   consecutive_failures_bounded [("eth0", "10.0.0.2")] [.markFailed 0 1] "10.0.0.2" 1
     (by decide)⟩

end ILB
